import Mathlib

/-!
Shallow embedding of the quiz-session timing and scoring core of the
`alx-quiz_app` repository (Python/Flask).  Time is modelled in whole UTC
seconds as `Int` (the source stores `datetime` values and all duration math
goes through `int(... .total_seconds())`, i.e. whole seconds).  The ambient
database session is modelled by explicit state passing: every operation that
mutates a persisted record returns the new record; the table of quiz sessions
is a `List QuizSession` and the per-user `QuizResult` row is an
`Option QuizResult`.  Python's request-scoped `current_user` is an explicit
`authenticated`/`uid` pair of parameters.  Rational numbers stand in for
Python's real-valued division in `progress_percentage`.
-/

namespace QuizApp

/-- Session status enum from `app/models/quiz_session.py`
(`Enum('active', 'completed', 'timeout', 'abandoned')`). -/
inductive SessionStatus where
  | active
  | completed
  | timeoutS
  | abandoned
deriving DecidableEq, Repr

/-- Model `QuizSession` (`app/models/quiz_session.py`).  `start_time` and
`time_limit_minutes` are non-nullable columns always assigned in `__init__`,
so they are plain `Int` here; `end_time` is nullable.  `score` and
`total_questions` have column default 0. -/
structure QuizSession where
  user_id : Int
  start_time : Int
  end_time : Option Int
  time_limit_minutes : Int
  status : SessionStatus
  score : Nat
  total_questions : Nat
deriving DecidableEq, Repr

/-- Constructor `QuizSession.__init__(user_id, time_limit_minutes=30)`: sets
`start_time = utc_now()`, `status = 'active'`; `end_time` stays null and
`score`/`total_questions` take their column default 0. -/
def QuizSession.init (user_id : Int) (time_limit_minutes : Int) (now : Int) :
    QuizSession :=
  { user_id := user_id
    start_time := now
    end_time := none
    time_limit_minutes := time_limit_minutes
    status := SessionStatus.active
    score := 0
    total_questions := 0 }

/-- Property `QuizSession.expiry_time`: `start_time + timedelta(minutes=time_limit_minutes)`.
With `start_time` non-nullable the `None` branches of the source never fire,
so the result is a plain `Int` (seconds). -/
def QuizSession.expiry_time (s : QuizSession) : Int :=
  s.start_time + s.time_limit_minutes * 60

/-- Property `QuizSession.time_remaining_seconds`: 0 for non-active status, 0 once
`now >= expiry`, otherwise `int((expiry - now).total_seconds())`. -/
def QuizSession.time_remaining_seconds (s : QuizSession) (now : Int) : Int :=
  if s.status != SessionStatus.active then 0
  else if s.expiry_time ≤ now then 0
  else s.expiry_time - now

/-- Property `QuizSession.time_elapsed_seconds`: `seconds_between(start_time, now)`. -/
def QuizSession.time_elapsed_seconds (s : QuizSession) (now : Int) : Int :=
  now - s.start_time

/-- Property `QuizSession.is_expired`: true when status is not `active`, or when
`utc_now() >= expiry_time`. -/
def QuizSession.is_expired (s : QuizSession) (now : Int) : Bool :=
  s.status != SessionStatus.active || decide (s.expiry_time ≤ now)

/-- Property `QuizSession.progress_percentage`: elapsed over total time as a
percentage, clamped by `min(100, max(0, progress))`; returns 100 when the
configured total time is zero.  Python float division is modelled exactly
over `ℚ`. -/
def QuizSession.progress_percentage (s : QuizSession) (now : Int) : ℚ :=
  if s.time_limit_minutes * 60 = 0 then 100
  else
    min 100 (max 0
      ((s.time_elapsed_seconds now : ℚ) / ((s.time_limit_minutes * 60 : Int) : ℚ) * 100))

/-- Method `QuizSession.complete_session(score=0, total_questions=0)`. -/
def QuizSession.complete_session (s : QuizSession) (now : Int)
    (score : Nat) (total_questions : Nat) : QuizSession :=
  { s with
    end_time := some now
    status := SessionStatus.completed
    score := score
    total_questions := total_questions }

/-- Method `QuizSession.timeout_session(score=0, total_questions=0)`. -/
def QuizSession.timeout_session (s : QuizSession) (now : Int)
    (score : Nat) (total_questions : Nat) : QuizSession :=
  { s with
    end_time := some now
    status := SessionStatus.timeoutS
    score := score
    total_questions := total_questions }

/-- Method `QuizSession.abandon_session()`: sets `end_time` and status only. -/
def QuizSession.abandon_session (s : QuizSession) (now : Int) : QuizSession :=
  { s with
    end_time := some now
    status := SessionStatus.abandoned }

/-- Predicate: session belongs to `uid` and is active (the filter used by
`QuizSession.get_active_session`). -/
def isActiveFor (uid : Int) (s : QuizSession) : Bool :=
  s.user_id == uid && s.status == SessionStatus.active

/-- Lookup `QuizSession.get_active_session(user_id)`: the first (`.first()`) stored
session with this user id and status `active`. -/
def get_active_session (uid : Int) (store : List QuizSession) :
    Option QuizSession :=
  store.find? (isActiveFor uid)

/-- The store mutation performed by `create_new_session` when an active
session exists: the first active session of the user is abandoned in place
(`active_session.abandon_session(); db.session.commit()`). -/
def abandonFirst (uid : Int) (now : Int) : List QuizSession → List QuizSession
  | [] => []
  | s :: rest =>
      if isActiveFor uid s then s.abandon_session now :: rest
      else s :: abandonFirst uid now rest

/-- Classmethod `QuizSession.create_new_session(user_id, time_limit_minutes=30)`: abandon
the user's existing active session (if any), then add a fresh active session.
Returns the new store and the fresh session. -/
def create_new_session (uid : Int) (time_limit_minutes : Int) (now : Int)
    (store : List QuizSession) : List QuizSession × QuizSession :=
  let store1 :=
    match get_active_session uid store with
    | some _ => abandonFirst uid now store
    | none => store
  let fresh := QuizSession.init uid time_limit_minutes now
  (store1 ++ [fresh], fresh)

/-- Number of active sessions a user has in the store. -/
def activeCount (uid : Int) (store : List QuizSession) : Nat :=
  (store.filter (isActiveFor uid)).length

/-- Stores reachable from the empty table by `create_new_session` calls. -/
inductive StoreReachable : List QuizSession → Prop where
  | empty : StoreReachable []
  | create (uid time_limit_minutes now : Int) (store : List QuizSession) :
      StoreReachable store →
      StoreReachable (create_new_session uid time_limit_minutes now store).1

/-- Sessions reachable from `__init__` by any sequence of the three
transition methods (as Python methods, they can be called in any state). -/
inductive SessionReachable : QuizSession → Prop where
  | init (uid limit now : Int) : SessionReachable (QuizSession.init uid limit now)
  | complete (s : QuizSession) (now : Int) (score total : Nat) :
      SessionReachable s → SessionReachable (s.complete_session now score total)
  | timeoutStep (s : QuizSession) (now : Int) (score total : Nat) :
      SessionReachable s → SessionReachable (s.timeout_session now score total)
  | abandon (s : QuizSession) (now : Int) :
      SessionReachable s → SessionReachable (s.abandon_session now)

/-- Model `Questions` (`app/models/question.py`): id, prompt, canonical
answer. -/
structure Question where
  id : Int
  question : String
  answer : String
deriving DecidableEq, Repr

/-- Model `QuizResult` (`app/models/quiz_result.py`): per-user score row. -/
structure QuizResult where
  user_id : Int
  quiz_score : Nat
deriving DecidableEq, Repr

/-- Decimal digit run to a natural number. -/
def digitsToNat (cs : List Char) : Nat :=
  cs.foldl (fun acc c => acc * 10 + (c.toNat - 48)) 0

/-- A nonempty all-digit character run, or `none`. -/
def parseDigits (cs : List Char) : Option Nat :=
  if cs.isEmpty then none
  else if cs.all Char.isDigit then some (digitsToNat cs)
  else none

/-- Whitespace characters recognised by Python's `str.strip` (the ASCII
ones). -/
def isPySpace (c : Char) : Bool :=
  c == ' ' || c == '\t' || c == '\n' || c == '\r' || c == '\x0b' || c == '\x0c'

/-- Python `str.strip()`: drop whitespace from both ends. -/
def py_strip (cs : List Char) : List Char :=
  ((cs.dropWhile isPySpace).reverse.dropWhile isPySpace).reverse

/-- Python `str.lower()` on one character (ASCII case mapping). -/
def py_lower_char (c : Char) : Char :=
  if 65 ≤ c.toNat ∧ c.toNat ≤ 90 then Char.ofNat (c.toNat + 32) else c

/-- Python's `int(id_str)` on a string: surrounding whitespace stripped,
optional sign, then a nonempty digit run; anything else raises `ValueError`,
modelled as `none`. -/
def py_int? (s : String) : Option Int :=
  match py_strip s.toList with
  | [] => none
  | c :: rest =>
      if c = '-' then (parseDigits rest).map (fun n => -(n : Int))
      else if c = '+' then (parseDigits rest).map (fun n => (n : Int))
      else (parseDigits (c :: rest)).map (fun n => (n : Int))

/-- Normalization `ans.strip().lower()`: whitespace trimmed at both ends, lowercased. -/
def normalize (s : String) : List Char :=
  (py_strip s.toList).map py_lower_char

/-- The dict comprehension `{q.id: q.answer for q in results}` as a lookup:
a later question with the same id overrides an earlier one. -/
def question_map (results : List Question) (qid : Int) : Option String :=
  results.foldl (fun acc q => if q.id = qid then some q.answer else acc) none

/-- The body of `calculate_score`'s loop for one `(id_str, ans)` entry:
does it increment the counter?  A non-integer id or an id absent from the
question map is skipped. -/
def entry_counts (results : List Question) (entry : String × String) : Bool :=
  match py_int? entry.1 with
  | none => false
  | some qid =>
      match question_map results qid with
      | none => false
      | some canonical => normalize canonical == normalize entry.2

/-- Function `calculate_score(form_data, results)` (`app/services/quiz_service.py`
lines 99-117): fold over the submitted entries, counting matches and
silently skipping malformed entries. -/
def calculate_score (form_data : List (String × String))
    (results : List Question) : Nat :=
  form_data.foldl
    (fun counter entry => if entry_counts results entry then counter + 1 else counter)
    0

/-- Result triple of `validate_session_time`: the (possibly mutated) session
as persisted, the validity flag, and the message. -/
structure ValidationResult where
  session : Option QuizSession
  valid : Bool
  message : String
deriving DecidableEq, Repr

/-- Function `validate_session_time(session)` (`app/services/quiz_service.py` lines
35-47): `None` is invalid; an expired session is timed out in place
(`session.timeout_session()`, default score 0) and reported invalid;
otherwise valid. -/
def validate_session_time (session : Option QuizSession) (now : Int) :
    ValidationResult :=
  match session with
  | none => ⟨none, false, "No active quiz session"⟩
  | some s =>
      if s.is_expired now then
        ⟨some (s.timeout_session now 0 0), false, "Quiz time has expired"⟩
      else
        ⟨some s, true, "Session is valid"⟩

/-- The two exception classes `get_quiz_score` can raise. -/
inductive QuizError where
  | valueError (msg : String)
  | timeoutError (msg : String)
deriving DecidableEq, Repr

/-- Observable outcome of one `get_quiz_score` call: the returned score or
raised exception, plus the persisted session and per-user result row. -/
structure SubmitResult where
  outcome : Except QuizError Nat
  session : Option QuizSession
  quizResult : Option QuizResult
deriving Repr

/-- Lines 69-96 of `get_quiz_score`, after the timing validation: early
return 0 on empty questions or empty form data, otherwise score, complete
the session if provided, and upsert the user's `QuizResult` row. -/
def get_quiz_score_core (uid : Int) (form_data : List (String × String))
    (results : List Question) (session : Option QuizSession)
    (qr : Option QuizResult) (now : Int) : SubmitResult :=
  if results.isEmpty then ⟨Except.ok 0, session, qr⟩
  else if form_data.isEmpty then ⟨Except.ok 0, session, qr⟩
  else
    let counter := calculate_score form_data results
    let session1 := session.map
      (fun s => s.complete_session now counter results.length)
    let qr1 : Option QuizResult :=
      match qr with
      | none => some ⟨uid, counter⟩
      | some row => some { row with quiz_score := counter }
    ⟨Except.ok counter, session1, qr1⟩

/-- Function `get_quiz_score(form_data, results, session=None)`
(`app/services/quiz_service.py` lines 50-96).  Raises `ValueError` without
authentication; with a session, runs `validate_session_time` first and on an
invalid session re-times it out with the partial score and question count,
then raises `TimeoutError(message)` (the `QuizResult` row untouched);
otherwise proceeds to scoring and the upsert. -/
def get_quiz_score (authenticated : Bool) (uid : Int)
    (form_data : List (String × String)) (results : List Question)
    (session : Option QuizSession) (qr : Option QuizResult) (now : Int) :
    SubmitResult :=
  if authenticated = false then
    ⟨Except.error (QuizError.valueError "User must be authenticated to score quiz"),
      session, qr⟩
  else
    match session with
    | some s =>
        let v := validate_session_time (some s) now
        if v.valid then get_quiz_score_core uid form_data results (some s) qr now
        else
          let counter := calculate_score form_data results
          let sTimed :=
            match v.session with
            | some s1 => s1.timeout_session now counter results.length
            | none => s.timeout_session now counter results.length
          ⟨Except.error (QuizError.timeoutError v.message), some sTimed, qr⟩
    | none => get_quiz_score_core uid form_data results none qr now

/-- A JSON value read from the request body where an integer is expected:
either an actual Python `int` or something failing the `isinstance` check. -/
inductive ReqInt where
  | int (n : Int)
  | nonInt
deriving DecidableEq, Repr

/-- The observable part of a boundary response: HTTP status code, success
flag, and the message or error string. -/
structure ApiResponse where
  httpStatus : Nat
  success : Bool
  message : String
deriving DecidableEq, Repr

/-- Endpoint `POST /session/create` (`app/api/v1/views/session.py` lines 80-107):
rejects a `time_limit_minutes` that is not an `int` in `[1, 180]` with a
400 and no store mutation; otherwise creates the session via
`start_quiz_session` → `create_new_session`. -/
def create_session (time_limit : ReqInt) (uid : Int)
    (store : List QuizSession) (now : Int) : ApiResponse × List QuizSession :=
  match time_limit with
  | ReqInt.int n =>
      if n < 1 ∨ n > 180 then
        (⟨400, false, "Time limit must be between 1 and 180 minutes"⟩, store)
      else
        let r := create_new_session uid n now store
        (⟨201, true, "Quiz session created successfully"⟩, r.1)
  | ReqInt.nonInt =>
      (⟨400, false, "Time limit must be between 1 and 180 minutes"⟩, store)

/-- Endpoint `POST /session/extend` (`app/api/v1/views/session.py` lines 140-179):
rejects an `additional_minutes` that is not an `int` in `[1, 30]` with a 400
before touching the session; 404 when no active session; otherwise adds the
minutes to `time_limit_minutes`. -/
def extend_session (additional : ReqInt) (session : Option QuizSession) :
    ApiResponse × Option QuizSession :=
  match additional with
  | ReqInt.int a =>
      if a < 1 ∨ a > 30 then
        (⟨400, false, "Additional time must be between 1 and 30 minutes"⟩, session)
      else
        match session with
        | none => (⟨404, false, "No active quiz session to extend"⟩, none)
        | some s =>
            (⟨200, true, "Session extended by " ++ toString a ++ " minutes"⟩,
              some { s with time_limit_minutes := s.time_limit_minutes + a })
  | ReqInt.nonInt =>
      (⟨400, false, "Additional time must be between 1 and 30 minutes"⟩, session)

/-! ### Theorems -/

/-- Claim C9: `abandon_session` sets only `end_time` and `status` (to
`abandoned`) and records no score — `score`, `total_questions`, `start_time`
and `time_limit_minutes` are unchanged — and neither `complete_session` nor
`timeout_session` nor `abandon_session` modifies `start_time` or
`time_limit_minutes`. -/
theorem abandon_frame_condition (s : QuizSession) (now : Int) :
    (s.abandon_session now).status = SessionStatus.abandoned
    ∧ (s.abandon_session now).end_time = some now
    ∧ (s.abandon_session now).score = s.score
    ∧ (s.abandon_session now).total_questions = s.total_questions
    ∧ (s.abandon_session now).start_time = s.start_time
    ∧ (s.abandon_session now).time_limit_minutes = s.time_limit_minutes
    ∧ (∀ score total : Nat,
        (s.complete_session now score total).start_time = s.start_time
        ∧ (s.complete_session now score total).time_limit_minutes
            = s.time_limit_minutes)
    ∧ (∀ score total : Nat,
        (s.timeout_session now score total).start_time = s.start_time
        ∧ (s.timeout_session now score total).time_limit_minutes
            = s.time_limit_minutes) :=
  ⟨rfl, rfl, rfl, rfl, rfl, rfl, fun _ _ => ⟨rfl, rfl⟩, fun _ _ => ⟨rfl, rfl⟩⟩

/-- Claim C4: `time_remaining_seconds` is 0 whenever the status is not
`active` or the current time is at or past `expiry_time`, and otherwise
equals `expiry_time - now` in whole seconds, where
`expiry_time = start_time + time_limit_minutes` (in minutes). -/
theorem time_remaining_correct (s : QuizSession) (now : Int) :
    ((s.status ≠ SessionStatus.active ∨ s.expiry_time ≤ now) →
        s.time_remaining_seconds now = 0)
    ∧ (s.status = SessionStatus.active → now < s.expiry_time →
        s.time_remaining_seconds now = s.expiry_time - now)
    ∧ s.expiry_time = s.start_time + s.time_limit_minutes * 60 := by
  refine ⟨?_, ?_, rfl⟩
  · intro h
    unfold QuizSession.time_remaining_seconds
    rcases h with h | h
    · simp [h]
    · by_cases hs : s.status = SessionStatus.active
      · simp [hs, h]
      · simp [hs]
  · intro hs hlt
    unfold QuizSession.time_remaining_seconds
    simp [hs, not_le.mpr hlt]

/-- Witness for C4 on a concrete session: active with 30-minute limit
started at 0, queried at 100 seconds, 1700 seconds remain; a completed
session reports 0. -/
theorem time_remaining_correct_witness :
    (QuizSession.init 1 30 0).time_remaining_seconds 100 = 1800 - 100
    ∧ ((QuizSession.init 1 30 0).complete_session 10 0 0).time_remaining_seconds 100
        = 0 :=
  ⟨(time_remaining_correct (QuizSession.init 1 30 0) 100).2.1 rfl (by decide),
    (time_remaining_correct ((QuizSession.init 1 30 0).complete_session 10 0 0)
      100).1 (Or.inl (by decide))⟩

/-- Claim C2: a freshly created session is `active` with null `end_time`;
every session reachable by creation followed by any sequence of transition
operations satisfies `end_time ≠ none ↔ status ≠ active`; and each
transition operation sets `end_time` together with its terminal status. -/
theorem end_time_iff_not_active :
    (∀ uid limit now : Int,
        (QuizSession.init uid limit now).status = SessionStatus.active
        ∧ (QuizSession.init uid limit now).end_time = none)
    ∧ (∀ s : QuizSession, SessionReachable s →
        (s.end_time ≠ none ↔ s.status ≠ SessionStatus.active))
    ∧ (∀ (s : QuizSession) (now : Int) (score total : Nat),
        (s.complete_session now score total).end_time = some now
        ∧ (s.complete_session now score total).status = SessionStatus.completed)
    ∧ (∀ (s : QuizSession) (now : Int) (score total : Nat),
        (s.timeout_session now score total).end_time = some now
        ∧ (s.timeout_session now score total).status = SessionStatus.timeoutS)
    ∧ (∀ (s : QuizSession) (now : Int),
        (s.abandon_session now).end_time = some now
        ∧ (s.abandon_session now).status = SessionStatus.abandoned) := by
  refine ⟨fun _ _ _ => ⟨rfl, rfl⟩, ?_, fun _ _ _ _ => ⟨rfl, rfl⟩,
    fun _ _ _ _ => ⟨rfl, rfl⟩, fun _ _ => ⟨rfl, rfl⟩⟩
  intro s h
  induction h with
  | init uid limit now => simp [QuizSession.init]
  | complete s now score total _ _ =>
      simp [QuizSession.complete_session]
  | timeoutStep s now score total _ _ =>
      simp [QuizSession.timeout_session]
  | abandon s now _ _ =>
      simp [QuizSession.abandon_session]

/-- Witness for C2: the invariant instantiated at a freshly created session
and at the same session after `complete_session`. -/
theorem end_time_iff_not_active_witness :
    ((QuizSession.init 1 30 0).end_time ≠ none
      ↔ (QuizSession.init 1 30 0).status ≠ SessionStatus.active)
    ∧ (((QuizSession.init 1 30 0).complete_session 5 2 3).end_time ≠ none
      ↔ ((QuizSession.init 1 30 0).complete_session 5 2 3).status
          ≠ SessionStatus.active) :=
  ⟨end_time_iff_not_active.2.1 (QuizSession.init 1 30 0)
      (SessionReachable.init 1 30 0),
    end_time_iff_not_active.2.1 ((QuizSession.init 1 30 0).complete_session 5 2 3)
      (SessionReachable.complete (QuizSession.init 1 30 0) 5 2 3
        (SessionReachable.init 1 30 0))⟩

/-- The counter fold of `calculate_score` counts exactly the entries that
satisfy `entry_counts`. -/
theorem calc_score_foldl_eq (results : List Question) :
    ∀ (form_data : List (String × String)) (acc : Nat),
      form_data.foldl
          (fun counter entry =>
            if entry_counts results entry then counter + 1 else counter) acc
        = acc + (form_data.filter (entry_counts results)).length := by
  intro form_data
  induction form_data with
  | nil => intro acc; simp
  | cons e rest ih =>
      intro acc
      by_cases h : entry_counts results e
      · simp only [List.foldl_cons, h, if_true, List.filter_cons_of_pos h,
          List.length_cons, ih]
        omega
      · simp only [List.foldl_cons, h, if_false, List.filter_cons_of_neg h, ih]
        simp

/-- Claim C3: `calculate_score` returns the number of submitted entries
whose id parses as an integer naming a question and whose normalized answer
matches the normalized canonical answer; malformed or unknown ids are
skipped; concrete cases: case/whitespace-insensitive matching of "Saturn",
and the two-question example scoring 2. -/
theorem calculate_score_correct :
    (∀ (form_data : List (String × String)) (results : List Question),
        calculate_score form_data results
          = (form_data.filter (entry_counts results)).length)
    ∧ (∀ (results : List Question) (entry : String × String),
        py_int? entry.1 = none → entry_counts results entry = false)
    ∧ (∀ (results : List Question) (entry : String × String) (qid : Int),
        py_int? entry.1 = some qid → question_map results qid = none →
        entry_counts results entry = false)
    ∧ calculate_score [("1", "Saturn")] [⟨1, "qa", "Saturn"⟩] = 1
    ∧ calculate_score [("1", " saturn ")] [⟨1, "qa", "Saturn"⟩] = 1
    ∧ calculate_score [("1", "SATURN")] [⟨1, "qa", "Saturn"⟩] = 1
    ∧ calculate_score [("1", "Saturn"), ("2", "Au")]
        [⟨1, "qa", "Saturn"⟩, ⟨2, "qb", "Au"⟩, ⟨3, "qc", "Paris"⟩] = 2
    ∧ calculate_score [("abc", "Saturn"), ("7", "Au")]
        [⟨1, "qa", "Saturn"⟩, ⟨2, "qb", "Au"⟩] = 0 := by
  refine ⟨?_, ?_, ?_, by decide, by decide, by decide, by decide, by decide⟩
  · intro form_data results
    unfold calculate_score
    simpa using calc_score_foldl_eq results form_data 0
  · intro results entry h
    unfold entry_counts
    rw [h]
  · intro results entry qid h1 h2
    unfold entry_counts
    rw [h1]
    simp only [h2]

/-- Witness for C3: a non-numeric id is skipped. -/
theorem calculate_score_correct_witness :
    py_int? "abc" = none ∧ entry_counts [] ("abc", "pluto") = false :=
  ⟨by decide, calculate_score_correct.2.1 [] ("abc", "pluto") (by decide)⟩

/-- Claim C8: `progress_percentage` always lies in `[0, 100]`; it equals
`elapsed / (time_limit_minutes * 60) * 100` clamped to that range when the
limit is nonzero, is defined as 100 when the limit is zero, and is exactly
100 once elapsed time exceeds a positive limit. -/
theorem progress_percentage_correct (s : QuizSession) (now : Int) :
    0 ≤ s.progress_percentage now
    ∧ s.progress_percentage now ≤ 100
    ∧ (s.time_limit_minutes = 0 → s.progress_percentage now = 100)
    ∧ (s.time_limit_minutes ≠ 0 →
        s.progress_percentage now
          = min 100 (max 0 ((s.time_elapsed_seconds now : ℚ)
              / ((s.time_limit_minutes * 60 : Int) : ℚ) * 100)))
    ∧ (0 < s.time_limit_minutes →
        s.time_limit_minutes * 60 < s.time_elapsed_seconds now →
        s.progress_percentage now = 100) := by
  by_cases h : s.time_limit_minutes * 60 = 0
  · have hlim : s.time_limit_minutes = 0 := by omega
    refine ⟨?_, ?_, fun _ => ?_, fun hne => absurd hlim hne, fun hpos _ => ?_⟩
    · simp [QuizSession.progress_percentage, h]
    · simp [QuizSession.progress_percentage, h]
    · simp [QuizSession.progress_percentage, h]
    · omega
  · have hlim : s.time_limit_minutes ≠ 0 := by
      intro hc
      exact h (by rw [hc]; ring)
    refine ⟨?_, ?_, fun hc => absurd hc hlim, fun _ => ?_, ?_⟩
    · simp only [QuizSession.progress_percentage, h, if_false]
      exact le_min (by norm_num) (le_max_left 0 _)
    · simp only [QuizSession.progress_percentage, h, if_false]
      exact min_le_left 100 _
    · simp [QuizSession.progress_percentage, h]
    · intro hpos hgt
      have ht : (0 : Int) < s.time_limit_minutes * 60 := by omega
      have ht' : (0 : ℚ) < ((s.time_limit_minutes * 60 : Int) : ℚ) := by
        exact_mod_cast ht
      have he' : ((s.time_limit_minutes * 60 : Int) : ℚ)
          < ((s.time_elapsed_seconds now : Int) : ℚ) := by
        exact_mod_cast hgt
      have h1 : (1 : ℚ) < (s.time_elapsed_seconds now : ℚ)
          / ((s.time_limit_minutes * 60 : Int) : ℚ) :=
        (one_lt_div ht').mpr he'
      have h100 : (100 : ℚ) ≤ (s.time_elapsed_seconds now : ℚ)
          / ((s.time_limit_minutes * 60 : Int) : ℚ) * 100 := by nlinarith
      simp only [QuizSession.progress_percentage, h, if_false]
      rw [max_eq_right (by linarith), min_eq_left h100]

/-- Witness for C8 on a concrete session: a 1-minute session queried 90
seconds after start reports exactly 100. -/
theorem progress_percentage_correct_witness :
    (QuizSession.init 1 1 0).progress_percentage 90 = 100 :=
  (progress_percentage_correct (QuizSession.init 1 1 0) 90).2.2.2.2
    (by decide) (by decide)

/-- Claim C1 evaluated on the code: calling `validate_session_time` on a
session already in the terminal state `completed` (score 5, 10 questions,
ended at 50) does return invalid with the expiry message, but it also calls
`timeout_session()`, rewriting the status to `timeout`, overwriting
`end_time`, and resetting `score` and `total_questions` to 0 — a state
transition out of a terminal state. -/
theorem validate_terminal_session_clobbers :
    validate_session_time
        (some { user_id := 1, start_time := 0, end_time := some 50,
                time_limit_minutes := 30, status := SessionStatus.completed,
                score := 5, total_questions := 10 }) 100
      = ⟨some { user_id := 1, start_time := 0, end_time := some 100,
                time_limit_minutes := 30, status := SessionStatus.timeoutS,
                score := 0, total_questions := 0 },
          false, "Quiz time has expired"⟩ := by
  decide

/-- Claim C7: session creation rejects a `time_limit_minutes` that is not an
integer in `[1, 180]` with its specific message and leaves the store
untouched; extension rejects an `additional_minutes` that is not an integer
in `[1, 30]` with its specific message and leaves the session untouched; a
valid extension adds the minutes; concretely, extending a 30-minute session
by 5 yields 35 while extending by 31 is rejected. -/
theorem boundary_time_limits :
    (∀ (n uid : Int) (store : List QuizSession) (now : Int),
        n < 1 ∨ n > 180 →
        create_session (ReqInt.int n) uid store now
          = (⟨400, false, "Time limit must be between 1 and 180 minutes"⟩, store))
    ∧ (∀ (uid : Int) (store : List QuizSession) (now : Int),
        create_session ReqInt.nonInt uid store now
          = (⟨400, false, "Time limit must be between 1 and 180 minutes"⟩, store))
    ∧ (∀ (a : Int) (session : Option QuizSession),
        a < 1 ∨ a > 30 →
        extend_session (ReqInt.int a) session
          = (⟨400, false, "Additional time must be between 1 and 30 minutes"⟩,
              session))
    ∧ (∀ session : Option QuizSession,
        extend_session ReqInt.nonInt session
          = (⟨400, false, "Additional time must be between 1 and 30 minutes"⟩,
              session))
    ∧ (∀ (a : Int) (s : QuizSession), 1 ≤ a → a ≤ 30 →
        extend_session (ReqInt.int a) (some s)
          = (⟨200, true, "Session extended by " ++ toString a ++ " minutes"⟩,
              some { s with time_limit_minutes := s.time_limit_minutes + a }))
    ∧ (∀ s : QuizSession, s.time_limit_minutes = 30 →
        (extend_session (ReqInt.int 5) (some s)).2.map
            QuizSession.time_limit_minutes = some 35)
    ∧ (∀ s : QuizSession,
        (extend_session (ReqInt.int 31) (some s)).1.httpStatus = 400
        ∧ (extend_session (ReqInt.int 31) (some s)).2 = some s) := by
  refine ⟨?_, fun _ _ _ => rfl, ?_, fun _ => rfl, ?_, ?_, ?_⟩
  · intro n uid store now h
    simp [create_session, h]
  · intro a session h
    simp [extend_session, h]
  · intro a s h1 h2
    have : ¬(a < 1 ∨ a > 30) := by omega
    simp [extend_session, this]
  · intro s h
    simp [extend_session, h]
  · intro s
    constructor <;> simp [extend_session]

/-- Witness for C7: extending a fresh 30-minute session by 5 succeeds with
limit 35, extending by 31 and creating with limit 181 are both rejected. -/
theorem boundary_time_limits_witness :
    extend_session (ReqInt.int 5) (some (QuizSession.init 1 30 0))
      = (⟨200, true, "Session extended by 5 minutes"⟩,
          some { QuizSession.init 1 30 0 with time_limit_minutes := 35 })
    ∧ extend_session (ReqInt.int 31) (some (QuizSession.init 1 30 0))
      = (⟨400, false, "Additional time must be between 1 and 30 minutes"⟩,
          some (QuizSession.init 1 30 0))
    ∧ create_session (ReqInt.int 181) 1 [] 0
      = (⟨400, false, "Time limit must be between 1 and 180 minutes"⟩, []) :=
  ⟨boundary_time_limits.2.2.2.2.1 5 (QuizSession.init 1 30 0)
      (by decide) (by decide),
    boundary_time_limits.2.2.1 31 (some (QuizSession.init 1 30 0))
      (Or.inr (by decide)),
    boundary_time_limits.1 181 1 [] 0 (Or.inr (by decide))⟩

/-- Claim C10: a valid (non-expired, hence active) session submitted with an
empty question list or empty form data returns score 0, leaves the session
untouched (still `active`) and neither creates nor updates a `QuizResult`
row. -/
theorem submit_empty_is_noop (uid : Int) (form_data : List (String × String))
    (results : List Question) (s : QuizSession) (qr : Option QuizResult)
    (now : Int) (hvalid : s.is_expired now = false)
    (hempty : results = [] ∨ form_data = []) :
    get_quiz_score true uid form_data results (some s) qr now
        = ⟨Except.ok 0, some s, qr⟩
    ∧ s.status = SessionStatus.active := by
  have hactive : s.status = SessionStatus.active := by
    by_contra hc
    simp [QuizSession.is_expired, hc] at hvalid
  refine ⟨?_, hactive⟩
  unfold get_quiz_score validate_session_time
  simp only [hvalid, Bool.false_eq_true, if_false]
  rcases hempty with h | h <;>
    simp [get_quiz_score_core, h]

/-- Witness for C10: an active 30-minute session submitted at time 100 with
no questions returns 0 and is left untouched. -/
theorem submit_empty_is_noop_witness :
    get_quiz_score true 1 [("1", "Saturn")] [] (some (QuizSession.init 1 30 0))
        none 100
      = ⟨Except.ok 0, some (QuizSession.init 1 30 0), none⟩ :=
  (submit_empty_is_noop 1 [("1", "Saturn")] [] (QuizSession.init 1 30 0) none 100
    (by decide) (Or.inl rfl)).1

/-- Claim C6: submitting against an expired session computes the partial
score from the supplied answers, records it and the question count on the
session through the timeout transition, raises the distinguishable
`TimeoutError`, and leaves the user's `QuizResult` row untouched; submitting
against a valid session (with a nonempty submission) computes the score,
completes the session, and upserts the `QuizResult` row — created with the
score if absent, its `quiz_score` overwritten otherwise. -/
theorem submit_expired_vs_valid (uid : Int)
    (form_data : List (String × String)) (results : List Question)
    (s : QuizSession) (qr : Option QuizResult) (now : Int) :
    (s.is_expired now = true →
      get_quiz_score true uid form_data results (some s) qr now
        = ⟨Except.error (QuizError.timeoutError "Quiz time has expired"),
            some (s.timeout_session now (calculate_score form_data results)
              results.length),
            qr⟩)
    ∧ (s.is_expired now = false → results ≠ [] → form_data ≠ [] →
      get_quiz_score true uid form_data results (some s) qr now
        = ⟨Except.ok (calculate_score form_data results),
            some (s.complete_session now (calculate_score form_data results)
              results.length),
            match qr with
            | none => some ⟨uid, calculate_score form_data results⟩
            | some row =>
                some { row with
                        quiz_score := calculate_score form_data results }⟩) := by
  constructor
  · intro hexp
    unfold get_quiz_score validate_session_time
    simp only [hexp, if_true]
    simp [QuizSession.timeout_session]
  · intro hval hres hfd
    unfold get_quiz_score validate_session_time
    simp only [hval, Bool.false_eq_true, if_false]
    simp [get_quiz_score_core, List.isEmpty_iff, hres, hfd]

/-- Witness for C6: one expired and one valid concrete submission of
`{"1": "Saturn"}` against the single question `(1, "Saturn")`. -/
theorem submit_expired_vs_valid_witness :
    get_quiz_score true 1 [("1", "Saturn")] [⟨1, "qa", "Saturn"⟩]
        (some (QuizSession.init 1 1 0)) none 61
      = ⟨Except.error (QuizError.timeoutError "Quiz time has expired"),
          some ((QuizSession.init 1 1 0).timeout_session 61 1 1), none⟩
    ∧ get_quiz_score true 1 [("1", "Saturn")] [⟨1, "qa", "Saturn"⟩]
        (some (QuizSession.init 1 30 0)) (some ⟨1, 0⟩) 10
      = ⟨Except.ok 1,
          some ((QuizSession.init 1 30 0).complete_session 10 1 1),
          some ⟨1, 1⟩⟩ :=
  ⟨(submit_expired_vs_valid 1 [("1", "Saturn")] [⟨1, "qa", "Saturn"⟩]
      (QuizSession.init 1 1 0) none 61).1 (by decide),
    (submit_expired_vs_valid 1 [("1", "Saturn")] [⟨1, "qa", "Saturn"⟩]
      (QuizSession.init 1 30 0) (some ⟨1, 0⟩) 10).2 (by decide)
      (by decide) (by decide)⟩

/-- An abandoned session is active for nobody. -/
theorem isActiveFor_abandon (uid : Int) (s : QuizSession) (now : Int) :
    isActiveFor uid (s.abandon_session now) = false := by
  simp [isActiveFor, QuizSession.abandon_session]

/-- A fresh session is active exactly for its owner. -/
theorem isActiveFor_init (uid uid' limit now : Int) :
    isActiveFor uid (QuizSession.init uid' limit now) = (uid' == uid) := by
  simp [isActiveFor, QuizSession.init]

/-- The count `activeCount` distributes over a cons cell. -/
theorem activeCount_cons (uid : Int) (s : QuizSession) (l : List QuizSession) :
    activeCount uid (s :: l)
      = (if isActiveFor uid s then 1 else 0) + activeCount uid l := by
  unfold activeCount
  by_cases h : isActiveFor uid s
  · simp [List.filter_cons_of_pos h, h]
    omega
  · simp [List.filter_cons_of_neg h, h]

/-- The count `activeCount` distributes over append. -/
theorem activeCount_append (uid : Int) (l1 l2 : List QuizSession) :
    activeCount uid (l1 ++ l2) = activeCount uid l1 + activeCount uid l2 := by
  simp [activeCount, List.filter_append]

/-- The count `activeCount` of the empty store. -/
theorem activeCount_nil (uid : Int) : activeCount uid [] = 0 := rfl

/-- Abandoning the user's first active session removes exactly one active
session of that user. -/
theorem activeCount_abandonFirst_self (uid now : Int) :
    ∀ l : List QuizSession,
      activeCount uid (abandonFirst uid now l) = activeCount uid l - 1 := by
  intro l
  induction l with
  | nil => rfl
  | cons s rest ih =>
      by_cases h : isActiveFor uid s
      · have e1 : abandonFirst uid now (s :: rest)
            = s.abandon_session now :: rest := by
          simp [abandonFirst, h]
        rw [e1, activeCount_cons, activeCount_cons, isActiveFor_abandon, h]
        simp
      · have h' : isActiveFor uid s = false := by simpa using h
        have e1 : abandonFirst uid now (s :: rest)
            = s :: abandonFirst uid now rest := by
          simp [abandonFirst, h']
        rw [e1, activeCount_cons, activeCount_cons, ih, h']
        simp

/-- Abandoning another user's first active session leaves this user's active
count unchanged. -/
theorem activeCount_abandonFirst_other (uid uid' now : Int)
    (hne : uid' ≠ uid) :
    ∀ l : List QuizSession,
      activeCount uid (abandonFirst uid' now l) = activeCount uid l := by
  intro l
  induction l with
  | nil => rfl
  | cons s rest ih =>
      by_cases h : isActiveFor uid' s
      · have huser : s.user_id = uid' := by
          simp [isActiveFor] at h
          exact h.1
        have h1 : isActiveFor uid s = false := by
          simp [isActiveFor, huser, hne]
        have e1 : abandonFirst uid' now (s :: rest)
            = s.abandon_session now :: rest := by
          simp [abandonFirst, h]
        rw [e1, activeCount_cons, activeCount_cons, isActiveFor_abandon, h1]
      · have h' : isActiveFor uid' s = false := by simpa using h
        have e1 : abandonFirst uid' now (s :: rest)
            = s :: abandonFirst uid' now rest := by
          simp [abandonFirst, h']
        rw [e1, activeCount_cons, activeCount_cons, ih]

/-- If the lookup for an active session finds nothing, the user has no
active session in the store. -/
theorem activeCount_of_find_none (uid : Int) (store : List QuizSession)
    (h : get_active_session uid store = none) : activeCount uid store = 0 := by
  unfold get_active_session at h
  unfold activeCount
  rw [List.filter_eq_nil_iff.mpr ?_]
  · rfl
  · intro a ha hc
    exact (List.find?_eq_none.mp h a ha) hc

/-- The rule-based uniqueness invariant: any store built from the empty
table by `create_new_session` calls gives every user at most one active
session. -/
theorem reachable_activeCount_le_one (store : List QuizSession)
    (h : StoreReachable store) : ∀ uid : Int, activeCount uid store ≤ 1 := by
  induction h with
  | empty => intro uid; simp [activeCount]
  | create uid' limit now store hr ih =>
      intro uid
      unfold create_new_session
      cases hfind : get_active_session uid' store with
      | none =>
          simp only [hfind, activeCount_append, activeCount_cons,
            isActiveFor_init, activeCount_nil]
          by_cases huid : uid' = uid
          · subst huid
            have h0 : activeCount uid' store = 0 :=
              activeCount_of_find_none uid' store hfind
            rw [h0]
            simp
          · have hbeq : (uid' == uid) = false := by simp [huid]
            rw [hbeq]
            simpa using ih uid
      | some a =>
          simp only [hfind, activeCount_append, activeCount_cons,
            isActiveFor_init, activeCount_nil]
          by_cases huid : uid' = uid
          · subst huid
            rw [activeCount_abandonFirst_self uid' now store]
            have hle := ih uid'
            simp only [beq_self_eq_true, if_true]
            omega
          · have hbeq : (uid' == uid) = false := by simp [huid]
            rw [activeCount_abandonFirst_other uid uid' now huid store, hbeq]
            simpa using ih uid

/-- Claim C5: `create_new_session` abandons the user's existing active
session before persisting the fresh active one, so any store reachable by
creation calls has at most one active session per user; concretely,
`create_new_session(u, 5)` then `create_new_session(u, 3)` leaves the first
session `abandoned` and the second `active`. -/
theorem create_session_unique_active (store : List QuizSession)
    (h : StoreReachable store) (uid : Int) :
    activeCount uid store ≤ 1
    ∧ (create_new_session 1 3 10 (create_new_session 1 5 0 []).1).1
        = [{ user_id := 1, start_time := 0, end_time := some 10,
             time_limit_minutes := 5, status := SessionStatus.abandoned,
             score := 0, total_questions := 0 },
           { user_id := 1, start_time := 10, end_time := none,
             time_limit_minutes := 3, status := SessionStatus.active,
             score := 0, total_questions := 0 }]
    ∧ (create_new_session 1 3 10 (create_new_session 1 5 0 []).1).2.status
        = SessionStatus.active :=
  ⟨reachable_activeCount_le_one store h uid, by decide, by decide⟩

/-- Witness for C5: the invariant instantiated at the two-creation store. -/
theorem create_session_unique_active_witness :
    activeCount 1 (create_new_session 1 3 10 (create_new_session 1 5 0 []).1).1
      ≤ 1 :=
  (create_session_unique_active
    (create_new_session 1 3 10 (create_new_session 1 5 0 []).1).1
    (StoreReachable.create 1 3 10 (create_new_session 1 5 0 []).1
      (StoreReachable.create 1 5 0 [] StoreReachable.empty)) 1).1

end QuizApp
